import Mathlib

/-!
Shallow embedding of the archpro coordinate-mapping / layout-generation
engine (src/App.tsx, src/components/CanvasEditor.tsx, the sidebar settings
form) and proofs about it.  JavaScript numbers are modelled as exact
rationals; JavaScript strings as Lean strings (with character-list helpers
mirroring String.prototype.includes and String.prototype.split).  UI-only
fields of the project state (image source, step, tool) are omitted; the
generated raster image is modelled by the geometry it is drawn from.
-/

namespace ArchPro

/-- Orientation of a grid line (types.ts, GridOrientation). -/
inductive Orient where
  | vertical
  | horizontal
deriving DecidableEq, BEq

/-- A structural grid line (types.ts, GridLine). -/
structure GridLine where
  id : String
  label : String
  position : ℚ
  orientation : Orient
deriving DecidableEq

/-- Column shape tag (types.ts, Column.type). -/
inductive ColType where
  | square
  | rectangular
deriving DecidableEq

/-- A selected column intersection (types.ts, Column). -/
structure Column where
  intersectionId : String
  type : ColType
  width : ℚ
  height : ℚ
deriving DecidableEq

/-- Foundation settings (types.ts ProjectSettings plus the extra fields
used by App.tsx); parseInt stores integers, so fields are integers. -/
structure Settings where
  scale : ℤ
  gridSpacing : ℤ
  wallWidth : ℤ
  trenchWidth : ℤ
  footingWidth : ℤ
  workingSpace : ℤ
  blindingOffset : ℤ
deriving DecidableEq

/-- One derived wall/footing run between two adjacent columns, in output
canvas coordinates (the objects pushed onto `connections` in App.tsx). -/
structure Segment where
  x1 : ℚ
  y1 : ℚ
  x2 : ℚ
  y2 : ℚ
deriving DecidableEq

/-- The geometric content of the generated raster: the connection segments
and the centers of the drawn column rectangles. -/
structure RenderResult where
  connections : List Segment
  drawnColumns : List (ℚ × ℚ)
deriving DecidableEq

/-- Project state (types.ts ProjectState restricted to the fields the core
reads); `generatedImageSrc` holds the geometry the exported image was
rendered from. -/
structure ProjectState where
  gridLines : List GridLine
  columns : List Column
  settings : Settings
  generatedImageSrc : Option RenderResult
deriving DecidableEq

/-- Default settings from the initial state in App.tsx. -/
def defaultSettings : Settings :=
  { scale := 100, gridSpacing := 4000, wallWidth := 225, trenchWidth := 600,
    footingWidth := 1000, workingSpace := 300, blindingOffset := 50 }

/-! ### JavaScript string helpers -/

/-- Does `sub` occur as a leading run of `l` (character-by-character)? -/
def charsLeadEq : List Char → List Char → Bool
  | [], _ => true
  | _ :: _, [] => false
  | a :: as, b :: bs => a == b && charsLeadEq as bs

/-- Does `sub` occur contiguously anywhere inside `l`?  Models
String.prototype.includes. -/
def charsContain (sub : List Char) : List Char → Bool
  | [] => charsLeadEq sub []
  | c :: rest => charsLeadEq sub (c :: rest) || charsContain sub rest

/-- JavaScript `s.includes(sub)`. -/
def strIncludes (s sub : String) : Bool := charsContain sub.data s.data

/-- Split a character list at every dash, keeping empty pieces; models
String.prototype.split with separator "-". -/
def splitDash : List Char → List (List Char)
  | [] => [[]]
  | c :: rest =>
    let r := splitDash rest
    if c == '-' then [] :: r
    else
      match r with
      | h :: t => (c :: h) :: t
      | [] => [[c]]

/-- JavaScript `s.split('-')` producing strings. -/
def splitDashStr (s : String) : List String :=
  (splitDash s.data).map (fun cs => String.mk cs)

/-- Accumulate a decimal value over the leading digits of a character
list, stopping at the first non-digit (the digit-consuming core of
JavaScript parseInt). -/
def parseDigits : List Char → ℕ → ℕ
  | [], acc => acc
  | c :: cs, acc => if c.isDigit then parseDigits cs (acc * 10 + (c.toNat - 48)) else acc

/-- JavaScript `parseInt(s)` (radix 10): skip leading whitespace, read an
optional sign, then require at least one leading digit; `none` models NaN. -/
def parseIntOpt (s : String) : Option ℤ :=
  let cs := s.data.dropWhile (fun c => c == ' ' || c == '\t' || c == '\n' || c == '\r')
  match cs with
  | '-' :: rest =>
    match rest with
    | c :: _ => if c.isDigit then some (-(parseDigits rest 0 : ℤ)) else none
    | [] => none
  | '+' :: rest =>
    match rest with
    | c :: _ => if c.isDigit then some ((parseDigits rest 0 : ℤ)) else none
    | [] => none
  | c :: _ => if c.isDigit then some ((parseDigits cs 0 : ℤ)) else none
  | [] => none

/-! ### Geometry mapper (App.tsx handleGenerate, lines 136-178) -/

/-- Output resolution, 300 dots per inch over 25.4 mm. -/
def PPI : ℚ := 300 / (254 / 10)

/-- A3 landscape canvas width in output pixels (420 mm paper). -/
def CANVAS_W : ℚ := 420 * PPI

/-- A3 landscape canvas height in output pixels (297 mm paper). -/
def CANVAS_H : ℚ := 297 * PPI

/-- Millimeters to output-canvas pixels at paper scale 1:scale. -/
def mmToPx (scale : ℤ) (mm : ℚ) : ℚ := mm / (scale : ℚ) * PPI

/-- Placeholder grid line used only as the default of total head/last
accessors; never selected when the list is nonempty. -/
def dummyLine : GridLine :=
  { id := "", label := "", position := 0, orientation := Orient.vertical }

/-- Ordering of grid lines by pixel position (the sort comparator
`(a,b) => a.position - b.position`). -/
def posLE (a b : GridLine) : Prop := a.position ≤ b.position

instance : DecidableRel posLE := fun a b =>
  inferInstanceAs (Decidable (a.position ≤ b.position))

instance : IsTotal GridLine posLE := ⟨fun a b => le_total a.position b.position⟩

instance : IsTrans GridLine posLE := ⟨fun _ _ _ hab hbc => le_trans hab hbc⟩

/-- Vertical grid lines sorted by pixel position (App.tsx line 162). -/
def vLinesOf (st : ProjectState) : List GridLine :=
  List.insertionSort posLE (st.gridLines.filter (fun l => l.orientation == Orient.vertical))

/-- Horizontal grid lines sorted by pixel position (App.tsx line 163). -/
def hLinesOf (st : ProjectState) : List GridLine :=
  List.insertionSort posLE (st.gridLines.filter (fun l => l.orientation == Orient.horizontal))

/-- Pixel positions of the vertical grid lines before sorting. -/
def verticalPositions (st : ProjectState) : List ℚ :=
  (st.gridLines.filter (fun l => l.orientation == Orient.vertical)).map GridLine.position

/-- Plan pixels per real-world millimeter (App.tsx lines 167-169): with at
least two vertical lines, endpoint pixel distance over nominal real
span; otherwise the fixed nominal fallback 0.1. -/
def pxPerRealMM (vs : List GridLine) (gridSpacing : ℤ) : ℚ :=
  if 1 < vs.length then
    ((vs.getLastD dummyLine).position - (vs.headD dummyLine).position)
      / ((gridSpacing : ℚ) * ((vs.length : ℚ) - 1))
  else 1 / 10

/-- Real-world grid extent along one axis in mm (App.tsx lines 171-172). -/
def gridExtent (ls : List GridLine) (gridSpacing : ℤ) : ℚ :=
  if 1 < ls.length then (gridSpacing : ℚ) * ((ls.length : ℚ) - 1) else 1000

/-- Horizontal centering offset (App.tsx line 174). -/
def cX (st : ProjectState) : ℚ :=
  CANVAS_W / 2 - mmToPx st.settings.scale (gridExtent (vLinesOf st) st.settings.gridSpacing) / 2

/-- Vertical centering offset (App.tsx line 175). -/
def cY (st : ProjectState) : ℚ :=
  CANVAS_H / 2 - mmToPx st.settings.scale (gridExtent (hLinesOf st) st.settings.gridSpacing) / 2

/-- Plan-pixel X coordinate to output-canvas X (App.tsx line 177). -/
def mapX (st : ProjectState) (x : ℚ) : ℚ :=
  cX st + mmToPx st.settings.scale
    ((x - ((vLinesOf st).headD dummyLine).position)
      / pxPerRealMM (vLinesOf st) st.settings.gridSpacing)

/-- Plan-pixel Y coordinate to output-canvas Y (App.tsx line 178). -/
def mapY (st : ProjectState) (y : ℚ) : ℚ :=
  cY st + mmToPx st.settings.scale
    ((y - ((hLinesOf st).headD dummyLine).position)
      / pxPerRealMM (vLinesOf st) st.settings.gridSpacing)

/-! ### Connection resolver (App.tsx findConnections, lines 184-202) -/

/-- Orthogonal-axis label of a column id relative to a grid line's label
(App.tsx lines 190-191): first hyphen component if it differs from the
line label, otherwise the second (which may be absent). -/
def orthLabelFor (lineLabel : String) (parts : List String) : Option String :=
  if parts.head? = some lineLabel then parts[1]? else parts.head?

/-- Resolve a column id to a position on the orthogonal axis (App.tsx
lines 190-193): look the orthogonal label up among the orthogonal lines. -/
def resolveOrth (orth : List GridLine) (lineLabel : String) (id : String) : Option ℚ :=
  match orth.find? (fun l => some l.label == orthLabelFor lineLabel (splitDashStr id)) with
  | some l => some l.position
  | none => none

/-- Orthogonal positions of the columns gathered for one grid line
(App.tsx lines 187-194): substring-filter by the line label, resolve the
orthogonal position, drop failures, sort ascending. -/
def colsOnLine (columns : List Column) (orth : List GridLine) (line : GridLine) : List ℚ :=
  List.insertionSort (fun a b => a ≤ b)
    ((columns.filter (fun c => strIncludes c.intersectionId line.label)).filterMap
      (fun c => resolveOrth orth line.label c.intersectionId))

/-- Adjacent pairs of a list (the i, i+1 loop of App.tsx lines 195-198). -/
def adjPairs : List ℚ → List (ℚ × ℚ)
  | a :: b :: rest => (a, b) :: adjPairs (b :: rest)
  | _ => []

/-- Segments emitted for one grid line by the connection pass (the body of
the forEach in App.tsx lines 186-199). -/
def segsForLine (st : ProjectState) (isVert : Bool) (line : GridLine) : List Segment :=
  let orth := if isVert then hLinesOf st else vLinesOf st
  let cols := colsOnLine st.columns orth line
  (adjPairs cols).map (fun p =>
    if isVert then
      { x1 := mapX st line.position, y1 := mapY st p.1,
        x2 := mapX st line.position, y2 := mapY st p.2 }
    else
      { x1 := mapX st p.1, y1 := mapY st line.position,
        x2 := mapX st p.2, y2 := mapY st line.position })

/-- The combined connection list: the horizontal pass then the vertical
pass (App.tsx lines 201-202). -/
def findConnections (st : ProjectState) : List Segment :=
  ((hLinesOf st).map (segsForLine st false)).flatten
    ++ ((vLinesOf st).map (segsForLine st true)).flatten

/-- Squared length of a segment; the drawing layers divide by its square
root when forming the normal vector (App.tsx lines 211-212). -/
def segLenSq (s : Segment) : ℚ :=
  (s.x2 - s.x1) * (s.x2 - s.x1) + (s.y2 - s.y1) * (s.y2 - s.y1)

/-! ### Column draw loop (App.tsx lines 243-259) -/

/-- Center of the drawn rectangle for one column, or `none` when either
referenced grid-line label cannot be found (the `line1 && line2` guard). -/
def drawCol (st : ProjectState) (col : Column) : Option (ℚ × ℚ) :=
  let parts := splitDashStr col.intersectionId
  let l1 := parts.headD ""
  let l2 : Option String := parts[1]?
  match st.gridLines.find? (fun l => l.label == l1),
        st.gridLines.find? (fun l => some l.label == l2) with
  | some line1, some line2 =>
    some (mapX st (if line1.orientation == Orient.vertical then line1.position else line2.position),
          mapY st (if line1.orientation == Orient.vertical then line2.position else line1.position))
  | _, _ => none

/-- Centers of all drawn column rectangles. -/
def drawnColumns (st : ProjectState) : List (ℚ × ℚ) :=
  st.columns.filterMap (drawCol st)

/-- The geometry painted onto the canvas by handleGenerate once the guard
has passed. -/
def renderGeometry (st : ProjectState) : RenderResult :=
  { connections := findConnections st, drawnColumns := drawnColumns st }

/-- The generate entry point (App.tsx handleGenerate): abort leaving the
state untouched when either axis has no grid line (line 165), otherwise
store the rendered output. -/
def handleGenerate (st : ProjectState) : ProjectState :=
  if (vLinesOf st).length < 1 ∨ (hLinesOf st).length < 1 then st
  else { st with generatedImageSrc := some (renderGeometry st) }

/-! ### Grid label allocator (CanvasEditor.tsx getNextLabel, lines 42-57) -/

/-- Next sequential grid label.  Vertical: "A" when none exist, else the
successor of the last line's first character when it is an ASCII letter,
else "A" (an empty label models charCodeAt(0) = NaN).  Horizontal: "1"
when none exist, else one plus the maximum parsable numeric label, else
count+1. -/
def getNextLabel (gridLines : List GridLine) (orientation : Orient) : String :=
  let lines := gridLines.filter (fun l => l.orientation == orientation)
  match orientation with
  | Orient.vertical =>
    if lines.isEmpty then "A"
    else
      match (lines.getLastD dummyLine).label.data with
      | [] => "A"
      | c :: _ =>
        if 65 ≤ c.toNat ∧ c.toNat ≤ 90 then String.mk [Char.ofNat (c.toNat + 1)]
        else if 97 ≤ c.toNat ∧ c.toNat ≤ 122 then String.mk [Char.ofNat (c.toNat + 1)]
        else "A"
  | Orient.horizontal =>
    if lines.isEmpty then "1"
    else
      match lines.filterMap (fun l => parseIntOpt l.label) with
      | [] => toString (lines.length + 1)
      | n :: rest => toString (rest.foldl max n + 1)

/-! ### Column toggle (CanvasEditor.tsx handleCanvasClick, lines 240-255) -/

/-- Toggle the column at a clicked intersection id: remove every column
carrying that id when one exists, otherwise append a fresh 20 by 20
square column. -/
def toggleColumn (cols : List Column) (clickedId : String) : List Column :=
  match cols.find? (fun c => c.intersectionId == clickedId) with
  | some _ => cols.filter (fun c => !(c.intersectionId == clickedId))
  | none => cols ++ [{ intersectionId := clickedId, type := ColType.square, width := 20, height := 20 }]

/-! ### Settings form (Sidebar updateSetting) -/

/-- Which settings field an input box writes to. -/
inductive SettingKey where
  | scale
  | gridSpacing
  | wallWidth
  | trenchWidth
  | footingWidth
  | workingSpace
  | blindingOffset
deriving DecidableEq

/-- Write one settings field. -/
def setField (s : Settings) (k : SettingKey) (n : ℤ) : Settings :=
  match k with
  | SettingKey.scale => { s with scale := n }
  | SettingKey.gridSpacing => { s with gridSpacing := n }
  | SettingKey.wallWidth => { s with wallWidth := n }
  | SettingKey.trenchWidth => { s with trenchWidth := n }
  | SettingKey.footingWidth => { s with footingWidth := n }
  | SettingKey.workingSpace => { s with workingSpace := n }
  | SettingKey.blindingOffset => { s with blindingOffset := n }

/-- Read one settings field. -/
def getField (s : Settings) (k : SettingKey) : ℤ :=
  match k with
  | SettingKey.scale => s.scale
  | SettingKey.gridSpacing => s.gridSpacing
  | SettingKey.wallWidth => s.wallWidth
  | SettingKey.trenchWidth => s.trenchWidth
  | SettingKey.footingWidth => s.footingWidth
  | SettingKey.workingSpace => s.workingSpace
  | SettingKey.blindingOffset => s.blindingOffset

/-- The sidebar's updateSetting: parseInt the raw input and store it
unless the result is NaN (Sidebar, updateSetting). -/
def updateSetting (s : Settings) (k : SettingKey) (value : String) : Settings :=
  match parseIntOpt value with
  | some n => setField s k n
  | none => s

/-! ### Undo/redo history (App.tsx lines 38-69) -/

/-- One history snapshot: the Pick of gridLines and columns. -/
structure Snapshot where
  gridLines : List GridLine
  columns : List Column
deriving DecidableEq

/-- The pieces of component state the history machinery manipulates. -/
structure HistoryState where
  current : Snapshot
  past : List Snapshot
  future : List Snapshot
deriving DecidableEq

/-- Keep only the trailing 19 snapshots (prev.slice(-19)). -/
def takeLast19 (l : List Snapshot) : List Snapshot := l.drop (l.length - 19)

/-- saveHistory: push the current snapshot (bounding the stack) and clear
the redo stack. -/
def applySave (h : HistoryState) : HistoryState :=
  { h with past := takeLast19 h.past ++ [h.current], future := [] }

/-- A mutation under the save-before-mutate discipline: saveHistory, then
replace the live snapshot. -/
def applyMutate (h : HistoryState) (s : Snapshot) : HistoryState :=
  { applySave h with current := s }

/-- undo (App.tsx lines 47-57): restore the top of the past stack, moving
the live snapshot onto the future stack. -/
def applyUndo (h : HistoryState) : HistoryState :=
  match h.past.getLast? with
  | none => h
  | some previous =>
    { current := previous, past := h.past.dropLast, future := h.current :: h.future }

/-- redo (App.tsx lines 59-69): restore the head of the future stack,
moving the live snapshot onto the past stack. -/
def applyRedo (h : HistoryState) : HistoryState :=
  match h.future with
  | [] => h
  | next :: rest => { current := next, past := h.past ++ [h.current], future := rest }

/-- A history operation as the claim quantifies them. -/
inductive HistOp where
  | mutate (s : Snapshot)
  | undo
  | redo

/-- Apply one history operation. -/
def applyOp (h : HistoryState) : HistOp → HistoryState
  | HistOp.mutate s => applyMutate h s
  | HistOp.undo => applyUndo h
  | HistOp.redo => applyRedo h

/-- Run a sequence of history operations. -/
def runOps (h : HistoryState) (ops : List HistOp) : HistoryState :=
  ops.foldl applyOp h

/-- The component mounts with both stacks empty. -/
def initialHistory (s0 : Snapshot) : HistoryState :=
  { current := s0, past := [], future := [] }

/-! ### Concrete states used by witnesses and counterexamples -/

/-- Shorthand for a square 20 by 20 column selection. -/
def mkCol (id : String) : Column :=
  { intersectionId := id, type := ColType.square, width := 20, height := 20 }

/-- Vertical lines A, B and horizontal lines 1, 11, with columns selected
at A-11 and B-1: the label "1" is a substring of the id "A-11". -/
def cexState : ProjectState :=
  { gridLines :=
      [ { id := "va", label := "A", position := 0, orientation := Orient.vertical },
        { id := "vb", label := "B", position := 100, orientation := Orient.vertical },
        { id := "h1", label := "1", position := 0, orientation := Orient.horizontal },
        { id := "h11", label := "11", position := 50, orientation := Orient.horizontal } ],
    columns := [mkCol "A-11", mkCol "B-1"],
    settings := defaultSettings,
    generatedImageSrc := none }

/-- The horizontal grid line labelled "1" of `cexState`. -/
def line1cex : GridLine :=
  { id := "h1", label := "1", position := 0, orientation := Orient.horizontal }

/-- Vertical lines A, B and horizontal lines 1, 2, with a column at B-1
and a dangling column A-12 whose label "12" names no grid line. -/
def c5CexSt : ProjectState :=
  { gridLines :=
      [ { id := "va", label := "A", position := 0, orientation := Orient.vertical },
        { id := "vb", label := "B", position := 100, orientation := Orient.vertical },
        { id := "h1", label := "1", position := 0, orientation := Orient.horizontal },
        { id := "h2", label := "2", position := 50, orientation := Orient.horizontal } ],
    columns := [mkCol "A-12", mkCol "B-1"],
    settings := defaultSettings,
    generatedImageSrc := none }

/-- `c5CexSt` with the dangling column removed. -/
def c5CexNoDangling : ProjectState := { c5CexSt with columns := [mkCol "B-1"] }

/-- The same grid with a dangling column A-9 instead: no grid-line label
occurs in "A-9" except as a full component. -/
def w5St : ProjectState := { c5CexSt with columns := [mkCol "B-1"] }

/-- The dangling column of the C5 witness. -/
def w5Col : Column := mkCol "A-9"

/-- One vertical line A and two horizontal lines 1 and 2 at the same
pixel position, with columns at A-1 and A-2: the connection pass on line
A produces a zero-length segment. -/
def c6St : ProjectState :=
  { gridLines :=
      [ { id := "va", label := "A", position := 0, orientation := Orient.vertical },
        { id := "h1", label := "1", position := 200, orientation := Orient.horizontal },
        { id := "h2", label := "2", position := 200, orientation := Orient.horizontal } ],
    columns := [mkCol "A-1", mkCol "A-2"],
    settings := defaultSettings,
    generatedImageSrc := none }

/-- The degenerate segment the renderer emits for `c6St`. -/
def c6Seg : Segment :=
  { x1 := mapX c6St 0, y1 := mapY c6St 200, x2 := mapX c6St 0, y2 := mapY c6St 200 }

/-- Two vertical lines given out of position order, for the C1 witness. -/
def c1St : ProjectState :=
  { gridLines :=
      [ { id := "vb", label := "B", position := 100, orientation := Orient.vertical },
        { id := "va", label := "A", position := 0, orientation := Orient.vertical } ],
    columns := [],
    settings := defaultSettings,
    generatedImageSrc := none }

/-- A single vertical line and no horizontal line: the generate guard
fires. -/
def c4St : ProjectState :=
  { gridLines := [ { id := "va", label := "A", position := 0, orientation := Orient.vertical } ],
    columns := [mkCol "A-1"],
    settings := defaultSettings,
    generatedImageSrc := none }

/-- Vertical lines labelled A then B. -/
def abLines : List GridLine :=
  [ { id := "va", label := "A", position := 0, orientation := Orient.vertical },
    { id := "vb", label := "B", position := 100, orientation := Orient.vertical } ]

/-- The second line of `abLines`. -/
def lineB : GridLine := { id := "vb", label := "B", position := 100, orientation := Orient.vertical }

/-- Horizontal lines labelled 1 then 3. -/
def h13Lines : List GridLine :=
  [ { id := "h1", label := "1", position := 0, orientation := Orient.horizontal },
    { id := "h3", label := "3", position := 100, orientation := Orient.horizontal } ]

/-- A single vertical line labelled Z. -/
def zLines : List GridLine :=
  [ { id := "vz", label := "Z", position := 0, orientation := Orient.vertical } ]

/-! ### Helper lemmas -/

/-- The adjacent-pair loop visits one pair fewer than there are entries. -/
theorem adjPairs_length : ∀ l : List ℚ, (adjPairs l).length = l.length - 1
  | [] => rfl
  | [_] => rfl
  | _ :: b :: rest => by
    rw [adjPairs, List.length_cons, adjPairs_length (b :: rest)]
    simp

/-- Head position commutes with projecting positions. -/
theorem headD_position (l : List GridLine) (d : GridLine) :
    (l.headD d).position = (l.map GridLine.position).headD d.position := by
  cases l <;> rfl

/-- Last position commutes with projecting positions. -/
theorem getLastD_position : ∀ (l : List GridLine) (d : GridLine),
    (l.getLastD d).position = (l.map GridLine.position).getLastD d.position
  | [], _ => rfl
  | a :: t, d => by
    rw [List.getLastD_cons, List.map_cons, List.getLastD_cons]
    exact getLastD_position t a

/-- The sorted vertical pass yields position-sorted lines. -/
theorem vLinesOf_sorted (st : ProjectState) :
    ((vLinesOf st).map GridLine.position).Sorted (fun a b => a ≤ b) := by
  have h : (vLinesOf st).Sorted posLE := List.sorted_insertionSort posLE _
  exact List.pairwise_map.mpr h

/-- The sorted vertical pass permutes the raw vertical positions. -/
theorem vLinesOf_positions_perm (st : ProjectState) :
    List.Perm ((vLinesOf st).map GridLine.position) (verticalPositions st) :=
  (List.perm_insertionSort posLE _).map GridLine.position

/-- If the raw vertical positions permute to a strictly sorted list, the
renderer's sorted vertical lines carry exactly that list of positions. -/
theorem vLinesOf_positions_eq (st : ProjectState) (ps : List ℚ)
    (hperm : List.Perm (verticalPositions st) ps)
    (hsorted : ps.Sorted (fun a b => a < b)) :
    (vLinesOf st).map GridLine.position = ps :=
  List.eq_of_perm_of_sorted ((vLinesOf_positions_perm st).trans hperm)
    (vLinesOf_sorted st) (List.Pairwise.imp (fun h => le_of_lt h) hsorted)

/-- Members of the sorted vertical list come from the grid-line list. -/
theorem mem_of_mem_vLinesOf (st : ProjectState) (l : GridLine) (h : l ∈ vLinesOf st) :
    l ∈ st.gridLines :=
  List.mem_of_mem_filter ((List.mem_insertionSort posLE).mp h)

/-- Members of the sorted horizontal list come from the grid-line list. -/
theorem mem_of_mem_hLinesOf (st : ProjectState) (l : GridLine) (h : l ∈ hLinesOf st) :
    l ∈ st.gridLines :=
  List.mem_of_mem_filter ((List.mem_insertionSort posLE).mp h)

/-! ### Claim theorems -/

/-- C2 (counterexample): on `cexState` exactly one column (B-1) is
selected on the grid line labelled "1" — i.e. has "1" as a hyphen
component of its id — yet the connection pass over that line emits one
segment, because the substring filter also gathers the column A-11. -/
theorem c2_counterexample :
    (cexState.columns.filter (fun c => (splitDashStr c.intersectionId).contains "1")).length = 1
    ∧ (segsForLine cexState false line1cex).length = 1 := by
  constructor
  · decide
  · decide

/-- C2 (amended): for every grid line the connection pass emits exactly
g - 1 segments (natural subtraction), where g counts the columns it
gathers for that line: those whose id contains the line's label as a
substring and whose resolved orthogonal label names an existing
orthogonal line.  In particular no segment is emitted when fewer than two
columns are gathered; when the gathered columns coincide with the columns
genuinely selected on the line, this is the claimed k - 1 property. -/
theorem c2_segments_adjacent_count (st : ProjectState) (isVert : Bool) (line : GridLine) :
    (segsForLine st isVert line).length
      = (colsOnLine st.columns (if isVert then hLinesOf st else vLinesOf st) line).length - 1 := by
  simp only [segsForLine, List.length_map]
  exact adjPairs_length _

/-- C4: with fewer than one vertical or fewer than one horizontal grid
line, the generate entry point aborts: the project state, and with it
the stored generated image, is left unchanged and no geometry is
produced. -/
theorem c4_insufficient_grid_aborts (st : ProjectState)
    (h : (vLinesOf st).length < 1 ∨ (hLinesOf st).length < 1) :
    handleGenerate st = st
    ∧ (handleGenerate st).generatedImageSrc = st.generatedImageSrc := by
  have hst : handleGenerate st = st := by rw [handleGenerate, if_pos h]
  exact ⟨hst, by rw [hst]⟩

/-- C4 witness: a state with one vertical line and no horizontal line is
left untouched by the generator. -/
theorem c4_witness :
    (hLinesOf c4St).length < 1 ∧ handleGenerate c4St = c4St :=
  ⟨by decide, (c4_insufficient_grid_aborts c4St (Or.inr (by decide))).1⟩

/-- C6: on `c6St` — two horizontal lines at the same pixel position, both
selected along vertical line A — the renderer emits the zero-length
segment instead of skipping it; its squared length is 0, so the drawing
layers compute the normal vector by dividing by sqrt 0 = 0. -/
theorem c6_degenerate_segment_not_skipped :
    (renderGeometry c6St).connections = [c6Seg]
    ∧ segLenSq c6Seg = 0
    ∧ c6Seg.x1 = c6Seg.x2
    ∧ c6Seg.y1 = c6Seg.y2 := by
  refine ⟨rfl, ?_, rfl, rfl⟩
  simp [segLenSq, c6Seg]

/-- C7 (counterexample): with a last vertical label "Z" the allocator
returns "[" (char code 91), not the "A" the claim describes. -/
theorem c7_counterexample :
    getNextLabel zLines Orient.vertical = "[" ∧ getNextLabel zLines Orient.vertical ≠ "A" := by
  constructor
  · decide
  · decide

/-- A left max-fold lands on its seed or on a list element. -/
theorem foldl_max_mem : ∀ (rest : List ℤ) (n : ℤ), rest.foldl max n ∈ n :: rest
  | [], n => by simp
  | a :: t, n => by
    rw [List.foldl_cons]
    rcases List.mem_cons.mp (foldl_max_mem t (max n a)) with h | h
    · rcases max_choice n a with hm | hm
      · rw [h, hm]
        exact List.mem_cons_self _ _
      · rw [h, hm]
        exact List.mem_cons_of_mem _ (List.mem_cons_self _ _)
    · exact List.mem_cons_of_mem _ (List.mem_cons_of_mem _ h)

/-- A left max-fold bounds its seed and every list element. -/
theorem foldl_max_le : ∀ (rest : List ℤ) (n : ℤ),
    n ≤ rest.foldl max n ∧ ∀ x ∈ rest, x ≤ rest.foldl max n
  | [], n => ⟨le_refl n, by simp⟩
  | a :: t, n => by
    rw [List.foldl_cons]
    refine ⟨le_trans (le_max_left n a) (foldl_max_le t (max n a)).1, ?_⟩
    intro x hx
    rcases List.mem_cons.mp hx with h | h
    · rw [h]
      exact le_trans (le_max_right n a) (foldl_max_le t (max n a)).1
    · exact (foldl_max_le t (max n a)).2 x h

/-- C7 (amended): vertical allocation returns "A" when no vertical line
exists, the bare successor of the last vertical line's first character
whenever that character is an ASCII letter — including 'Z' to '[' and 'z'
to the character of code 123 — and "A" for an empty or non-letter first
character; horizontal allocation returns "1" when no horizontal line
exists, one plus the maximum of the labels that parse as numbers when
any do (the folded value is shown to be a member of and an upper bound
for the parsed labels), and count plus one when none parse; the examples
A,B to "C" and 1,3 to "4" hold. -/
theorem c7_next_label :
    (∀ (gls : List GridLine) (gl : GridLine) (c : Char) (cs : List Char),
      (gls.filter (fun l => l.orientation == Orient.vertical)).getLast? = some gl →
      gl.label.data = c :: cs →
      (65 ≤ c.toNat ∧ c.toNat ≤ 90) ∨ (97 ≤ c.toNat ∧ c.toNat ≤ 122) →
      getNextLabel gls Orient.vertical = String.mk [Char.ofNat (c.toNat + 1)])
    ∧ (∀ gls : List GridLine,
      gls.filter (fun l => l.orientation == Orient.vertical) = [] →
      getNextLabel gls Orient.vertical = "A")
    ∧ (∀ (gls : List GridLine) (gl : GridLine) (c : Char) (cs : List Char),
      (gls.filter (fun l => l.orientation == Orient.vertical)).getLast? = some gl →
      gl.label.data = c :: cs →
      ¬((65 ≤ c.toNat ∧ c.toNat ≤ 90) ∨ (97 ≤ c.toNat ∧ c.toNat ≤ 122)) →
      getNextLabel gls Orient.vertical = "A")
    ∧ (∀ (gls : List GridLine) (gl : GridLine),
      (gls.filter (fun l => l.orientation == Orient.vertical)).getLast? = some gl →
      gl.label.data = [] →
      getNextLabel gls Orient.vertical = "A")
    ∧ (∀ gls : List GridLine,
      gls.filter (fun l => l.orientation == Orient.horizontal) = [] →
      getNextLabel gls Orient.horizontal = "1")
    ∧ (∀ (gls : List GridLine) (n : ℤ) (rest : List ℤ),
      (gls.filter (fun l => l.orientation == Orient.horizontal)).filterMap
          (fun l => parseIntOpt l.label) = n :: rest →
      getNextLabel gls Orient.horizontal = toString (rest.foldl max n + 1)
      ∧ rest.foldl max n ∈ n :: rest
      ∧ ∀ x ∈ n :: rest, x ≤ rest.foldl max n)
    ∧ (∀ gls : List GridLine,
      gls.filter (fun l => l.orientation == Orient.horizontal) ≠ [] →
      (gls.filter (fun l => l.orientation == Orient.horizontal)).filterMap
          (fun l => parseIntOpt l.label) = [] →
      getNextLabel gls Orient.horizontal
        = toString ((gls.filter (fun l => l.orientation == Orient.horizontal)).length + 1))
    ∧ getNextLabel abLines Orient.vertical = "C"
    ∧ getNextLabel h13Lines Orient.horizontal = "4" := by
  refine ⟨?_, ?_, ?_, ?_, ?_, ?_, ?_, by decide, by decide⟩
  · intro gls gl c cs hlast hdata hletter
    have hne : gls.filter (fun l => l.orientation == Orient.vertical) ≠ [] := by
      intro he
      rw [he] at hlast
      simp at hlast
    rw [getNextLabel]
    cases hf : gls.filter (fun l => l.orientation == Orient.vertical) with
    | nil => exact absurd hf hne
    | cons l0 rest =>
      rw [hf] at hlast
      have hld : (l0 :: rest).getLastD dummyLine = gl := by
        rw [List.getLastD_eq_getLast?, hlast]
        rfl
      simp only [List.isEmpty_cons, Bool.false_eq_true, if_false, hld, hdata]
      rcases hletter with h | h
      · rw [if_pos h]
      · rw [if_neg (by omega), if_pos h]
  · intro gls he
    rw [getNextLabel, he]
    rfl
  · intro gls gl c cs hlast hdata hneg
    have hne : gls.filter (fun l => l.orientation == Orient.vertical) ≠ [] := by
      intro he
      rw [he] at hlast
      simp at hlast
    rw [getNextLabel]
    cases hf : gls.filter (fun l => l.orientation == Orient.vertical) with
    | nil => exact absurd hf hne
    | cons l0 rest =>
      rw [hf] at hlast
      have hld : (l0 :: rest).getLastD dummyLine = gl := by
        rw [List.getLastD_eq_getLast?, hlast]
        rfl
      simp only [List.isEmpty_cons, Bool.false_eq_true, if_false, hld, hdata]
      rw [if_neg (fun h => hneg (Or.inl h)), if_neg (fun h => hneg (Or.inr h))]
  · intro gls gl hlast hdata
    have hne : gls.filter (fun l => l.orientation == Orient.vertical) ≠ [] := by
      intro he
      rw [he] at hlast
      simp at hlast
    rw [getNextLabel]
    cases hf : gls.filter (fun l => l.orientation == Orient.vertical) with
    | nil => exact absurd hf hne
    | cons l0 rest =>
      rw [hf] at hlast
      have hld : (l0 :: rest).getLastD dummyLine = gl := by
        rw [List.getLastD_eq_getLast?, hlast]
        rfl
      simp only [List.isEmpty_cons, Bool.false_eq_true, if_false, hld, hdata]
  · intro gls he
    rw [getNextLabel, he]
    rfl
  · intro gls n rest hnums
    have hne : gls.filter (fun l => l.orientation == Orient.horizontal) ≠ [] := by
      intro he
      rw [he] at hnums
      simp at hnums
    refine ⟨?_, foldl_max_mem rest n, ?_⟩
    · rw [getNextLabel]
      cases hf : gls.filter (fun l => l.orientation == Orient.horizontal) with
      | nil => exact absurd hf hne
      | cons l0 rest2 =>
        rw [hf] at hnums
        simp only [List.isEmpty_cons, Bool.false_eq_true, if_false, hnums]
    · intro x hx
      rcases List.mem_cons.mp hx with h | h
      · rw [h]
        exact (foldl_max_le rest n).1
      · exact (foldl_max_le rest n).2 x h
  · intro gls hne hnums
    rw [getNextLabel]
    cases hf : gls.filter (fun l => l.orientation == Orient.horizontal) with
    | nil => exact absurd hf hne
    | cons l0 rest2 =>
      rw [hf] at hnums
      simp only [List.isEmpty_cons, Bool.false_eq_true, if_false, hnums, hf]

/-- C7 witness: applied to the A,B grid the vertical successor clause
yields the successor of 'B', and applied to the 1,3 grid the horizontal
clause yields one plus the folded maximum of the parsed labels. -/
theorem c7_witness :
    lineB.label.data = 'B' :: []
    ∧ getNextLabel abLines Orient.vertical = String.mk [Char.ofNat ('B'.toNat + 1)]
    ∧ getNextLabel h13Lines Orient.horizontal = toString (([3] : List ℤ).foldl max 1 + 1) :=
  ⟨by decide,
   c7_next_label.1 abLines lineB 'B' [] (by decide) (by decide) (Or.inl (by decide)),
   (c7_next_label.2.2.2.2.2.1 h13Lines 1 [3] (by decide)).1⟩

/-- C9 (counterexample): the input "-5" does not denote a positive
integer, yet updateSetting stores -5 into the scale field instead of
rejecting the update. -/
theorem c9_counterexample :
    (updateSetting defaultSettings SettingKey.scale "-5").scale = -5
    ∧ updateSetting defaultSettings SettingKey.scale "-5" ≠ defaultSettings := by
  constructor
  · decide
  · decide

/-- Writing one field then reading it back yields the written value. -/
theorem getField_setField_self (s : Settings) (k : SettingKey) (n : ℤ) :
    getField (setField s k n) k = n := by
  cases k <;> rfl

/-- Writing one field leaves every other field unchanged. -/
theorem getField_setField_other (s : Settings) (k k' : SettingKey) (n : ℤ) (h : k' ≠ k) :
    getField (setField s k n) k' = getField s k' := by
  cases k <;> cases k' <;> first | rfl | exact absurd rfl h

/-- C9 (amended): the settings update is rejected — the settings object
left completely unchanged — exactly when parseInt yields NaN (no leading
integer); whenever the input has a parsable integer (including zero,
negative, or digit-led garbage input), that integer is stored into the
named field and every other field is unchanged, so no NaN is ever
stored. -/
theorem c9_update_setting (s : Settings) (k : SettingKey) (v : String) :
    (parseIntOpt v = none → updateSetting s k v = s)
    ∧ ∀ n : ℤ, parseIntOpt v = some n →
        updateSetting s k v = setField s k n
        ∧ getField (updateSetting s k v) k = n
        ∧ ∀ k' : SettingKey, k' ≠ k → getField (updateSetting s k v) k' = getField s k' := by
  constructor
  · intro h
    rw [updateSetting, h]
  · intro n h
    rw [updateSetting, h]
    exact ⟨rfl, getField_setField_self s k n, fun k' hk => getField_setField_other s k k' n hk⟩

/-- C9 witness: a non-numeric input leaves the settings untouched. -/
theorem c9_witness :
    parseIntOpt "abc" = none
    ∧ updateSetting defaultSettings SettingKey.wallWidth "abc" = defaultSettings :=
  ⟨by decide,
   (c9_update_setting defaultSettings SettingKey.wallWidth "abc").1 (by decide)⟩

/-- C10: toggling an intersection id that is present removes every column
with that id; toggling an absent one appends exactly one 20 by 20 square
column with that id; and distinctness of the intersection ids in the
columns list is preserved. -/
theorem c10_toggle (cols : List Column) (id : String) :
    ((∃ c ∈ cols, c.intersectionId = id) →
        ∀ c ∈ toggleColumn cols id, c.intersectionId ≠ id)
    ∧ ((∀ c ∈ cols, c.intersectionId ≠ id) →
        toggleColumn cols id = cols ++ [mkCol id])
    ∧ ((cols.map Column.intersectionId).Nodup →
        ((toggleColumn cols id).map Column.intersectionId).Nodup) := by
  refine ⟨?_, ?_, ?_⟩
  · rintro ⟨c0, hc0, hid⟩ c hc
    have hfind : cols.find? (fun c => c.intersectionId == id) ≠ none := by
      intro hnone
      exact (List.find?_eq_none.mp hnone c0 hc0) (by simp [hid])
    cases hf : cols.find? (fun c => c.intersectionId == id) with
    | none => exact absurd hf hfind
    | some c1 =>
      rw [toggleColumn, hf] at hc
      have := (List.mem_filter.mp hc).2
      simp at this
      exact this
  · intro h
    have hf : cols.find? (fun c => c.intersectionId == id) = none :=
      List.find?_eq_none.mpr (fun c hc => by simp [h c hc])
    rw [toggleColumn, hf]
    rfl
  · intro hnd
    cases hf : cols.find? (fun c => c.intersectionId == id) with
    | some c1 =>
      rw [toggleColumn, hf]
      exact List.Nodup.sublist (List.Sublist.map _ (List.filter_sublist cols)) hnd
    | none =>
      rw [toggleColumn, hf]
      have hnotin : id ∉ cols.map Column.intersectionId := by
        intro hmem
        obtain ⟨c, hc, hcid⟩ := List.mem_map.mp hmem
        exact (List.find?_eq_none.mp hf c hc) (by simp [hcid])
      rw [List.map_append]
      exact List.nodup_append.mpr
        ⟨hnd, List.nodup_cons.mpr ⟨List.not_mem_nil _, List.nodup_nil⟩,
         List.disjoint_singleton.mpr hnotin⟩

/-- C10 witness: toggling on an empty list appends the new column, and
the toggled list of a singleton keeps distinct ids. -/
theorem c10_witness :
    toggleColumn [] "A-1" = [] ++ [mkCol "A-1"]
    ∧ ((toggleColumn [mkCol "A-1"] "A-1").map Column.intersectionId).Nodup :=
  ⟨(c10_toggle [] "A-1").2.1 (by simp),
   (c10_toggle [mkCol "A-1"] "A-1").2.2 (by decide)⟩

/-- C1: when the raw vertical-line positions permute to a strictly sorted
list p0 < p1 < ... < pn of length at least 2 and the grid spacing is
positive, the renderer's pixels-per-real-millimeter factor equals
(pn - p0) / (gridSpacing * n), and mapX of any plan-pixel x is the
centering offset cX plus mmToPx of (x - p0) / pixelsPerRealMM; with
exactly one vertical line the factor is the nominal fallback 0.1. -/
theorem c1_px_per_real_mm_and_mapX (st : ProjectState) (ps : List ℚ)
    (_hgs : 0 < st.settings.gridSpacing)
    (hperm : List.Perm (verticalPositions st) ps)
    (hsorted : ps.Sorted (fun a b => a < b)) :
    (2 ≤ ps.length →
      pxPerRealMM (vLinesOf st) st.settings.gridSpacing
        = (ps.getLastD 0 - ps.headD 0)
          / ((st.settings.gridSpacing : ℚ) * ((ps.length : ℚ) - 1))
      ∧ ∀ x : ℚ, mapX st x
        = cX st + mmToPx st.settings.scale
            ((x - ps.headD 0) / pxPerRealMM (vLinesOf st) st.settings.gridSpacing))
    ∧ (ps.length = 1 →
      pxPerRealMM (vLinesOf st) st.settings.gridSpacing = 1 / 10) := by
  have heq : (vLinesOf st).map GridLine.position = ps := vLinesOf_positions_eq st ps hperm hsorted
  have hlen : (vLinesOf st).length = ps.length := by
    rw [← heq, List.length_map]
  have hhead : ((vLinesOf st).headD dummyLine).position = ps.headD 0 := by
    rw [headD_position, heq]
    rfl
  have hlast : ((vLinesOf st).getLastD dummyLine).position = ps.getLastD 0 := by
    rw [getLastD_position, heq]
    rfl
  constructor
  · intro h2
    have hlt : 1 < (vLinesOf st).length := by omega
    constructor
    · rw [pxPerRealMM, if_pos hlt, hhead, hlast, hlen]
    · intro x
      rw [mapX, hhead]
  · intro h1
    have hlt : ¬ 1 < (vLinesOf st).length := by omega
    rw [pxPerRealMM, if_neg hlt]

/-- C1 witness: two vertical lines given out of order at pixels 100 and 0
with the default 4000 mm spacing satisfy the endpoint formula, and mapX
at 50 matches the stated form. -/
theorem c1_witness :
    0 < c1St.settings.gridSpacing
    ∧ pxPerRealMM (vLinesOf c1St) c1St.settings.gridSpacing
        = (([0, 100] : List ℚ).getLastD 0 - ([0, 100] : List ℚ).headD 0)
          / ((c1St.settings.gridSpacing : ℚ) * ((([0, 100] : List ℚ).length : ℚ) - 1))
    ∧ mapX c1St 50
        = cX c1St + mmToPx c1St.settings.scale
            ((50 - ([0, 100] : List ℚ).headD 0)
              / pxPerRealMM (vLinesOf c1St) c1St.settings.gridSpacing) :=
  ⟨by decide,
   ((c1_px_per_real_mm_and_mapX c1St [0, 100] (by decide) (by decide) (by decide)).1
      (by decide)).1,
   ((c1_px_per_real_mm_and_mapX c1St [0, 100] (by decide) (by decide) (by decide)).1
      (by decide)).2 50⟩

/-- C3 (counterexample): for the grid line labelled "1" of `cexState`,
the gathering filter admits the column A-11 — whose id contains "1" only
as a substring, not as a component — so the gathered positions are
[0, 100] although only B-1 is selected on that line. -/
theorem c3_counterexample :
    strIncludes "A-11" "1" = true
    ∧ (splitDashStr "A-11").contains "1" = false
    ∧ colsOnLine cexState.columns (vLinesOf cexState) line1cex = [0, 100] := by
  refine ⟨by decide, by decide, by decide⟩

/-- C3 (amended): the positions gathered for a grid line are sorted, and
a position is gathered exactly when some column's id contains the line's
label as a substring (not necessarily as a component) and its
code-resolved orthogonal label names an existing orthogonal line at that
position; every emitted segment joins adjacent entries of this list. -/
theorem c3_gathered_iff (columns : List Column) (orth : List GridLine) (line : GridLine) :
    (colsOnLine columns orth line).Sorted (fun a b => a ≤ b)
    ∧ ∀ q : ℚ, (q ∈ colsOnLine columns orth line ↔
        ∃ c ∈ columns, strIncludes c.intersectionId line.label = true
          ∧ resolveOrth orth line.label c.intersectionId = some q) := by
  constructor
  · exact List.sorted_insertionSort _ _
  · intro q
    rw [colsOnLine, List.mem_insertionSort, List.mem_filterMap]
    constructor
    · rintro ⟨c, hc, hres⟩
      have hmem := List.mem_filter.mp hc
      exact ⟨c, hmem.1, hmem.2, hres⟩
    · rintro ⟨c, hc, hinc, hres⟩
      exact ⟨c, List.mem_filter.mpr ⟨hc, hinc⟩, hres⟩

/-- C3 witness: position 0 is gathered on line "1" of `cexState`,
via the substring-matched column A-11 resolving through vertical line A. -/
theorem c3_witness :
    (0 : ℚ) ∈ colsOnLine cexState.columns (vLinesOf cexState) line1cex :=
  ((c3_gathered_iff cexState.columns (vLinesOf cexState) line1cex).2 0).mpr
    ⟨mkCol "A-11", by decide, by decide, by decide⟩

/-- Prepending a column that either fails the substring filter or fails
orthogonal resolution does not change the gathered positions. -/
theorem colsOnLine_cons_irrelevant (columns : List Column) (col : Column)
    (orth : List GridLine) (line : GridLine)
    (h : strIncludes col.intersectionId line.label = false
       ∨ resolveOrth orth line.label col.intersectionId = none) :
    colsOnLine (col :: columns) orth line = colsOnLine columns orth line := by
  rcases h with h | h
  · simp [colsOnLine, List.filter_cons, h]
  · cases hs : strIncludes col.intersectionId line.label with
    | false => simp [colsOnLine, List.filter_cons, hs]
    | true => simp [colsOnLine, List.filter_cons, hs, List.filterMap_cons, h]

/-- The orthogonal label of a two-component id: the second component when
the line label is the first, otherwise the first component. -/
theorem orthLabelFor_pair (lab a b : String) :
    orthLabelFor lab [a, b] = if a = lab then some b else some a := by
  by_cases hab : a = lab <;> simp [orthLabelFor, hab]

/-- Resolution fails when the orthogonal label names no line of the
orthogonal list. -/
theorem resolveOrth_none_of_dead (orth : List GridLine) (lab id m : String)
    (horth : orthLabelFor lab (splitDashStr id) = some m)
    (hdead : ∀ l ∈ orth, l.label ≠ m) :
    resolveOrth orth lab id = none := by
  have hfind : orth.find?
      (fun l => some l.label == orthLabelFor lab (splitDashStr id)) = none := by
    apply List.find?_eq_none.mpr
    intro l hl
    simp [horth, beq_iff_eq]
    exact hdead l hl
  unfold resolveOrth
  rw [hfind]

/-- A column with a two-component id one of whose components names no
grid line contributes nothing to the gathering of any grid line,
provided every grid-line label occurring inside the id as a substring is
one of the two components. -/
theorem colsOnLine_cons_dangling (st : ProjectState) (col : Column) (a b m : String)
    (orth : List GridLine)
    (hsplit : splitDashStr col.intersectionId = [a, b])
    (hm : m = a ∨ m = b)
    (hmiss : ∀ l ∈ st.gridLines, l.label ≠ m)
    (horthsub : ∀ l ∈ orth, l ∈ st.gridLines)
    (hfaith : ∀ l ∈ st.gridLines,
      strIncludes col.intersectionId l.label = true → l.label = a ∨ l.label = b)
    (line : GridLine) (hline : line ∈ st.gridLines) :
    colsOnLine (col :: st.columns) orth line = colsOnLine st.columns orth line := by
  apply colsOnLine_cons_irrelevant
  cases hs : strIncludes col.intersectionId line.label with
  | false => exact Or.inl rfl
  | true =>
    right
    have hlab := hfaith line hline hs
    have hdead : ∀ l ∈ orth, l.label ≠ m := fun l hl => hmiss l (horthsub l hl)
    apply resolveOrth_none_of_dead _ _ _ m _ hdead
    rw [hsplit, orthLabelFor_pair]
    rcases hlab with h1 | h2
    · rcases hm with hma | hmb
      · exact absurd (h1.trans hma.symm) (hmiss line hline)
      · rw [if_pos h1.symm, hmb]
    · rcases hm with hma | hmb
      · by_cases hab : a = line.label
        · rw [if_pos hab, h2.symm.trans hab.symm, hma]
        · rw [if_neg hab, hma]
      · exact absurd (h2.trans hmb.symm) (hmiss line hline)

/-- The draw loop skips a column one of whose two id components names no
grid line. -/
theorem drawCol_none_of_dangling (st : ProjectState) (col : Column) (a b m : String)
    (hsplit : splitDashStr col.intersectionId = [a, b])
    (hm : m = a ∨ m = b)
    (hmiss : ∀ l ∈ st.gridLines, l.label ≠ m) :
    drawCol st col = none := by
  rcases hm with hma | hmb
  · have hf : st.gridLines.find?
        (fun l => l.label == (splitDashStr col.intersectionId).headD "") = none := by
      apply List.find?_eq_none.mpr
      intro l hl
      simp [hsplit, beq_iff_eq]
      rw [← hma]
      exact hmiss l hl
    simp only [drawCol, hf]
  · have hf : st.gridLines.find?
        (fun l => some l.label == (splitDashStr col.intersectionId)[1]?) = none := by
      apply List.find?_eq_none.mpr
      intro l hl
      simp [hsplit, beq_iff_eq]
      rw [← hmb]
      exact hmiss l hl
    simp only [drawCol, hf]
    cases st.gridLines.find? (fun l => l.label == (splitDashStr col.intersectionId).headD "") <;> rfl

/-- Replacing the columns leaves the line extraction unchanged. -/
theorem vLinesOf_set_columns (st : ProjectState) (cols : List Column) :
    vLinesOf { st with columns := cols } = vLinesOf st := rfl

/-- Replacing the columns leaves the line extraction unchanged. -/
theorem hLinesOf_set_columns (st : ProjectState) (cols : List Column) :
    hLinesOf { st with columns := cols } = hLinesOf st := rfl

/-- The per-line segment pass under a column replacement, written with
the original state's transform. -/
theorem segsForLine_set_columns (st : ProjectState) (cols : List Column)
    (isVert : Bool) (line : GridLine) :
    segsForLine { st with columns := cols } isVert line
      = (adjPairs (colsOnLine cols (if isVert then hLinesOf st else vLinesOf st) line)).map
          (fun p =>
            if isVert then
              { x1 := mapX st line.position, y1 := mapY st p.1,
                x2 := mapX st line.position, y2 := mapY st p.2 }
            else
              { x1 := mapX st p.1, y1 := mapY st line.position,
                x2 := mapX st p.2, y2 := mapY st line.position }) := rfl

/-- C5 (counterexample): in `c5CexSt` the column A-12 references the
label "12", which names no grid line; the claim says it contributes to no
segment, yet with it present the renderer emits one segment (on line "1",
via the substring match) and with it removed it emits none. -/
theorem c5_counterexample :
    (c5CexSt.gridLines.map GridLine.label).contains "12" = false
    ∧ (renderGeometry c5CexSt).connections.length = 1
    ∧ (renderGeometry c5CexNoDangling).connections.length = 0 := by
  refine ⟨by decide, by decide, by decide⟩

/-- C5 (amended): rendering is a total function; a column one of whose
two id components names no grid line has no rectangle drawn for it, and
— provided every grid-line label occurring inside its id as a substring
is one of the id's two components — adding the column changes neither the
segment list nor the drawn columns.  Without that proviso a line whose
label is a mere substring of the id can still gather the column
(see the counterexample). -/
theorem c5_dangling_excluded (st : ProjectState) (col : Column) (a b m : String)
    (hsplit : splitDashStr col.intersectionId = [a, b])
    (hm : m = a ∨ m = b)
    (hmiss : ∀ l ∈ st.gridLines, l.label ≠ m)
    (hfaith : ∀ l ∈ st.gridLines,
      strIncludes col.intersectionId l.label = true → l.label = a ∨ l.label = b) :
    drawCol st col = none
    ∧ renderGeometry { st with columns := col :: st.columns } = renderGeometry st := by
  have hdraw := drawCol_none_of_dangling st col a b m hsplit hm hmiss
  refine ⟨hdraw, ?_⟩
  have hseg : ∀ (isVert : Bool) (line : GridLine), line ∈ st.gridLines →
      segsForLine { st with columns := col :: st.columns } isVert line
        = segsForLine st isVert line := by
    intro isVert line hline
    have horthsub : ∀ l ∈ (if isVert then hLinesOf st else vLinesOf st), l ∈ st.gridLines := by
      cases isVert with
      | false => simpa using fun l hl => mem_of_mem_vLinesOf st l hl
      | true => simpa using fun l hl => mem_of_mem_hLinesOf st l hl
    rw [segsForLine_set_columns,
        colsOnLine_cons_dangling st col a b m _ hsplit hm hmiss horthsub hfaith line hline]
    rfl
  have h1 : (hLinesOf st).map (segsForLine { st with columns := col :: st.columns } false)
      = (hLinesOf st).map (segsForLine st false) :=
    List.map_congr_left (fun l hl => hseg false l (mem_of_mem_hLinesOf st l hl))
  have h2 : (vLinesOf st).map (segsForLine { st with columns := col :: st.columns } true)
      = (vLinesOf st).map (segsForLine st true) :=
    List.map_congr_left (fun l hl => hseg true l (mem_of_mem_vLinesOf st l hl))
  have hconn : findConnections { st with columns := col :: st.columns } = findConnections st := by
    rw [findConnections, findConnections, hLinesOf_set_columns, vLinesOf_set_columns, h1, h2]
  have hdcfun : drawCol { st with columns := col :: st.columns } = drawCol st := rfl
  have hdc : drawnColumns { st with columns := col :: st.columns } = drawnColumns st := by
    show List.filterMap (drawCol { st with columns := col :: st.columns }) (col :: st.columns)
      = drawnColumns st
    rw [hdcfun, List.filterMap_cons, hdraw]
    rfl
  rw [renderGeometry, renderGeometry, hconn, hdc]

/-- C5 witness: the dangling column A-9 (no line labelled "9" exists, and
no grid-line label occurs in "A-9" except as a component) draws no
rectangle and leaves the rendered geometry unchanged. -/
theorem c5_witness :
    splitDashStr "A-9" = ["A", "9"]
    ∧ drawCol w5St w5Col = none
    ∧ renderGeometry { w5St with columns := w5Col :: w5St.columns } = renderGeometry w5St :=
  ⟨by decide,
   (c5_dangling_excluded w5St w5Col "A" "9" "9" (by decide) (Or.inr rfl)
      (by decide) (by decide)).1,
   (c5_dangling_excluded w5St w5Col "A" "9" "9" (by decide) (Or.inr rfl)
      (by decide) (by decide)).2⟩

/-- The bounded save keeps at most 19 snapshots. -/
theorem takeLast19_length_le (l : List Snapshot) : (takeLast19 l).length ≤ 19 := by
  simp [takeLast19, List.length_drop]
  omega

/-- Total stack size of a history state. -/
def histSize (h : HistoryState) : ℕ := h.past.length + h.future.length

/-- Every history operation preserves a total stack size of at most 20. -/
theorem histSize_applyOp_le (h : HistoryState) (op : HistOp) (hh : histSize h ≤ 20) :
    histSize (applyOp h op) ≤ 20 := by
  cases op with
  | mutate s =>
    simp [applyOp, applyMutate, applySave, histSize, List.length_append]
    have := takeLast19_length_le h.past
    omega
  | undo =>
    cases hp : h.past.getLast? with
    | none => simpa [applyOp, applyUndo, hp, histSize] using hh
    | some p =>
      have hne : h.past ≠ [] := by
        intro he
        rw [he] at hp
        simp at hp
      have hpos : 0 < h.past.length := List.length_pos.mpr hne
      simp [histSize] at hh
      simp [applyOp, applyUndo, hp, histSize, List.length_dropLast]
      omega
  | redo =>
    cases hf : h.future with
    | nil => simpa [applyOp, applyRedo, hf, histSize] using hh
    | cons x xs =>
      simp [histSize, hf] at hh
      simp [applyOp, applyRedo, hf, histSize, List.length_append]
      omega

/-- The total stack size stays bounded along any run. -/
theorem histSize_runOps_le (ops : List HistOp) (h : HistoryState) (hh : histSize h ≤ 20) :
    histSize (runOps h ops) ≤ 20 := by
  induction ops generalizing h with
  | nil => simpa [runOps] using hh
  | cons op rest ih =>
    rw [runOps, List.foldl_cons]
    exact ih (applyOp h op) (histSize_applyOp_le h op hh)

/-- C8: undo restores exactly the snapshot that was current before the
most recent saved mutation; redo restores exactly the snapshot that the
preceding undo replaced; and from empty stacks, the past stack never
holds more than 20 snapshots along any sequence of operations. -/
theorem c8_history :
    (∀ (h : HistoryState) (s : Snapshot), (applyUndo (applyMutate h s)).current = h.current)
    ∧ (∀ h : HistoryState, h.past ≠ [] → (applyRedo (applyUndo h)).current = h.current)
    ∧ (∀ (s0 : Snapshot) (ops : List HistOp),
        (runOps (initialHistory s0) ops).past.length ≤ 20) := by
  refine ⟨?_, ?_, ?_⟩
  · intro h s
    simp [applyMutate, applySave, applyUndo, List.getLast?_concat]
  · intro h hne
    cases hp : h.past.getLast? with
    | none => exact absurd (List.getLast?_eq_none_iff.mp hp) hne
    | some p => simp [applyUndo, hp, applyRedo]
  · intro s0 ops
    have hb := histSize_runOps_le ops (initialHistory s0) (by simp [histSize, initialHistory])
    rw [histSize] at hb
    omega

/-- The empty snapshot. -/
def snapEmpty : Snapshot := { gridLines := [], columns := [] }

/-- A snapshot holding the A,B grid. -/
def snapAB : Snapshot := { gridLines := abLines, columns := [] }

/-- A history state with one saved past snapshot. -/
def histEx : HistoryState := { current := snapAB, past := [snapEmpty], future := [] }

/-- C8 witness: a mutate-undo round trip restores the empty snapshot, a
redo after undo restores the mutated snapshot, and a concrete run stays
within the bound. -/
theorem c8_witness :
    (applyUndo (applyMutate (initialHistory snapEmpty) snapAB)).current
      = (initialHistory snapEmpty).current
    ∧ (applyRedo (applyUndo histEx)).current = histEx.current
    ∧ (runOps (initialHistory snapEmpty)
        [HistOp.mutate snapAB, HistOp.undo, HistOp.redo]).past.length ≤ 20 :=
  ⟨c8_history.1 (initialHistory snapEmpty) snapAB,
   c8_history.2.1 histEx (by simp [histEx]),
   c8_history.2.2 snapEmpty [HistOp.mutate snapAB, HistOp.undo, HistOp.redo]⟩

end ArchPro
